import Mathlib

/-!
Verification of the account subsystem (`src/account.rs`) of sms4-backend.

The pure parts of the source file — the permission containment table,
the default permission set, the tag-entry classification, the verify
(`do_verify`) and request (`req_verify`) session operations and the
versioned codec — are shallowly embedded as executable Lean functions.
External collaborators that are not part of the file (the `verify`
module, the `libaccount` inner types, the bincode serializer) are
modelled from the specification at their interface boundary; each such
definition is marked `Modelled from the spec:` in its doc comment.
-/

namespace Sms4

/-- Permission groups of an account (`enum Permission` in the source). -/
inductive Permission where
  | Post
  | GetPubPost
  | ReviewPost
  | RemovePost
  | SetPermissions
  | ViewFullAccount
  | ViewSimpleAccount
  | ManageNotifications
  | GetPubNotifications
  | UploadResource
  | Maintain
deriving DecidableEq, Repr

/-- The default permission set of a new account (`Permission::default_set`),
returned as the list literal of the source array, read as a finite set. -/
def Permission.default_set : List Permission :=
  [.Post, .GetPubPost, .ViewSimpleAccount, .UploadResource, .GetPubNotifications]

/-- The containment relation (`Permission::contains`): an exact-match test
against the fixed table of (holder, implied) pairs in the source `matches!`. -/
def Permission.contains (self permission : Permission) : Bool :=
  match self, permission with
  | .Post, .GetPubPost => true
  | .SetPermissions, .ViewFullAccount => true
  | .SetPermissions, .ViewSimpleAccount => true
  | .ViewFullAccount, .ViewSimpleAccount => true
  | .ReviewPost, .GetPubPost => true
  | .RemovePost, .GetPubPost => true
  | .RemovePost, .ReviewPost => true
  | .ManageNotifications, .GetPubNotifications => true
  | _, _ => false

/-- The eight declared pairs of the containment table, written out from the
specification wording for comparison with `Permission.contains`. -/
def specContainsPairs : List (Permission × Permission) :=
  [(.Post, .GetPubPost),
   (.SetPermissions, .ViewFullAccount),
   (.SetPermissions, .ViewSimpleAccount),
   (.ViewFullAccount, .ViewSimpleAccount),
   (.ReviewPost, .GetPubPost),
   (.RemovePost, .GetPubPost),
   (.RemovePost, .ReviewPost),
   (.ManageNotifications, .GetPubNotifications)]

/-- A house (external `libaccount::House`; its concrete variants are
irrelevant here, so it is modelled as a wrapped code). -/
structure House where
  code : Nat
deriving DecidableEq, Repr

/-- An academy (external `libaccount::Academy`; modelled as a wrapped code). -/
structure Academy where
  code : Nat
deriving DecidableEq, Repr

/-- A tag of an account (`enum Tag` in the source). -/
inductive Tag where
  | Permission (p : Permission)
  | Department (d : String)
  | House (h : House)
  | Academy (a : Academy)
deriving DecidableEq, Repr

/-- The entry of a tag (`enum TagEntry` in the source). -/
inductive TagEntry where
  | Permission
  | Department
  | House
  | Academy
deriving DecidableEq, Repr

/-- Classification of a tag into its entry (`Tag::as_entry`). -/
def Tag.as_entry : Tag → TagEntry
  | .Permission _ => .Permission
  | .Department _ => .Department
  | .House _ => .House
  | .Academy _ => .Academy

/-- Extraction of the permission of a tag (`Tag::as_permission`). -/
def Tag.as_permission : Tag → Option Sms4.Permission
  | .Permission p => some p
  | _ => none

/-- Whether a tag entry is user-definable (`TagEntry::is_user_defineable`):
the source is `!matches!(self, TagEntry::Permission)`. -/
def TagEntry.is_user_defineable : TagEntry → Bool
  | .Permission => false
  | _ => true

/-- A captcha: modelled from the spec, a short random code. The randomness
source is external, so fresh captchas enter the model as parameters. -/
abbrev Captcha := Nat

/-- A verify-session variant. Modelled from the spec: the purpose tag of a
verification flow (`verify::VerifyVariant`, declared in the out-of-scope
`verify` module), e.g. reset-password or account activation. -/
inductive VerifyVariant where
  | ResetPassword
  | Activation
deriving DecidableEq, Repr

/-- The error kinds surfaced by the session operations (`crate::Error`,
declared outside this file; the variants follow the source uses and the
specification). A transport error carries the collaborator error verbatim,
modelled as a code. -/
inductive Error where
  | VerifySessionNotFound (v : VerifyVariant)
  | CaptchaIncorrect
  | Throttled
  | TransportError (code : Nat)
  | InvalidEmail
deriving DecidableEq, Repr

/-- A verify session. Modelled from the spec: `verify::VerifyCx` holds the
captcha and the creation / last-request timestamps (seconds). -/
structure VerifyCx where
  captcha : Captcha
  created_at : Nat
  last_request_at : Nat
deriving DecidableEq, Repr

/-- The fixed cooldown between session (re)issuances: 10 minutes, in
seconds. Modelled from the spec. -/
def cooldown : Nat := 600

/-- Modelled from the spec: `VerifyCx::new()` issues a fresh captcha and
sets both timestamps to the current time. The current time and the freshly
generated captcha are passed in explicitly. -/
def VerifyCx.new (now : Nat) (fresh : Captcha) : VerifyCx :=
  { captcha := fresh, created_at := now, last_request_at := now }

/-- Modelled from the spec: `VerifyCx::update()` fails with `Throttled`
when the elapsed time since `last_request_at` is no more than the cooldown
(the doc comment of `req_verify` in the source: errors "if the difference
between the last request time and the current time is no more than 10
minutes"); on success the captcha is regenerated and the last-request
timestamp refreshed. -/
def VerifyCx.update (cx : VerifyCx) (now : Nat) (fresh : Captcha) :
    Except Error VerifyCx :=
  if now - cx.last_request_at ≤ cooldown then
    .error .Throttled
  else
    .ok { cx with captcha := fresh, last_request_at := now }

/-- The external data of a verified account (`struct Ext` in the source):
the map from verify variant to verify session. The `HashMap` over the
two-variant key enum is embedded as one optional slot per variant. -/
structure Ext where
  resetPassword : Option VerifyCx
  activation : Option VerifyCx
deriving DecidableEq, Repr

/-- `HashMap::get` on the verify-session map. -/
def Ext.get (ext : Ext) : VerifyVariant → Option VerifyCx
  | .ResetPassword => ext.resetPassword
  | .Activation => ext.activation

/-- `HashMap::insert` on the verify-session map (also models an in-place
`get_mut` write: the value at the key is replaced). -/
def Ext.insert (ext : Ext) (v : VerifyVariant) (cx : VerifyCx) : Ext :=
  match v with
  | .ResetPassword => { ext with resetPassword := some cx }
  | .Activation => { ext with activation := some cx }

/-- `HashMap::remove` on the verify-session map. -/
def Ext.remove (ext : Ext) (v : VerifyVariant) : Ext :=
  match v with
  | .ResetPassword => { ext with resetPassword := none }
  | .Activation => { ext with activation := none }

/-- `Account::do_verify`, state-passing form: the result together with the
account extension state after the call (a `&mut self` method; an error
leaves the state unchanged, as in the source, where only the success arm
mutates). Looks up the session for the variant, fails with
`VerifySessionNotFound` when absent, compares the stored captcha with the
candidate, and on a match removes the session and succeeds; otherwise
fails with `CaptchaIncorrect`. -/
def Account.do_verify (variant : VerifyVariant) (captcha : Captcha)
    (ext : Ext) : Except Error Unit × Ext :=
  match ext.get variant with
  | none => (.error (.VerifySessionNotFound variant), ext)
  | some cx =>
    if cx.captcha = captcha then
      (.ok (), ext.remove variant)
    else
      (.error .CaptchaIncorrect, ext)

/-- The outcome of `req_verify`: success, a returned error, or a panic of
the `.unwrap()` on the post-insertion lookup. -/
inductive ReqOutcome where
  | ok
  | err (e : Error)
  | panicked
deriving DecidableEq, Repr

/-- The final step of `req_verify`:
`ext.verifies.get_mut(&variant).unwrap().send_email(...)`. The lookup is
explicit, and an absent entry is the `.unwrap()` panic. Sending the email
is the external transport collaborator; its outcome enters the model as
the `sendResult` parameter and is returned verbatim (modelled from the
spec: `send_email` does not change the session). -/
def Account.send_step (variant : VerifyVariant) (sendResult : Except Error Unit)
    (ext : Ext) : ReqOutcome × Ext :=
  match ext.get variant with
  | some _ =>
    match sendResult with
    | .ok _ => (.ok, ext)
    | .error e => (.err e, ext)
  | none => (.panicked, ext)

/-- `Account::req_verify`, state-passing form. If a session exists for the
variant, it is refreshed via `cx.update()?` — a `Throttled` error
propagates and nothing is written; otherwise a fresh session is inserted.
Only then is the email send attempted, on the already-updated state. The
current time and fresh captcha are explicit parameters, as is the outcome
of the email transport. -/
def Account.req_verify (variant : VerifyVariant) (now : Nat) (fresh : Captcha)
    (sendResult : Except Error Unit) (ext : Ext) : ReqOutcome × Ext :=
  match ext.get variant with
  | some cx =>
    match cx.update now fresh with
    | .error e => (.err e, ext)
    | .ok cx' => Account.send_step variant sendResult (ext.insert variant cx')
  | none =>
    Account.send_step variant sendResult (ext.insert variant (VerifyCx.new now fresh))

/-- The result of `decode`: a decoded entity, or the fatal `unreachable!`
branch taken on an unsupported schema version (a panic, not a returned
error — the operation aborts). -/
inductive DecodeResult (α : Type) where
  | ok (a : α)
  | fatal
deriving DecidableEq, Repr

/-- The inner verified account (external `libaccount::Account<Tag, Ext>`),
modelled from the spec at its interface boundary: the engine-assigned id,
the identity fields, the tags and the extension payload. -/
structure InnerAccount where
  id : Nat
  email : String
  tags : List Tag
  ext : Ext
deriving DecidableEq, Repr

/-- The bincode payload of a verified account. Modelled from the spec: the
serialized fields of the inner account, which never include the account id
(the payload never stores its own partition key) nor a version marker. -/
structure AccountPayload where
  email : String
  tags : List Tag
  ext : Ext
deriving DecidableEq, Repr

/-- `<Account as dmds::Data>::encode`: bincode-serializes the inner
account into the buffer (structurally: all fields except the id). -/
def Account.encode (a : InnerAccount) : AccountPayload :=
  { email := a.email, tags := a.tags, ext := a.ext }

/-- `<Account as dmds::Data>::decode`: dispatches on the externally
supplied schema version. Version 1 deserializes the payload and then
injects the id from the dimension key `dims[0]` (the `unsafe
initialize_id` call); any other version hits `unreachable!`. -/
def Account.decode (version : Nat) (dims : List Nat) (p : AccountPayload) :
    DecodeResult InnerAccount :=
  if version = 1 then
    .ok { id := dims.headD 0, email := p.email, tags := p.tags, ext := p.ext }
  else
    .fatal

/-- `<Account as dmds::Data>::dim`: dimension 0 is the account id. -/
def Account.dim (a : InnerAccount) : Nat := a.id

/-- The inner unverified account (external `libaccount::Unverified<VerifyCx>`),
modelled from the spec at its interface boundary: the email, the partition
hash computed once from it, and the single activation verify session. -/
structure InnerUnverified where
  email_hash : Nat
  email : String
  ext : VerifyCx
deriving DecidableEq, Repr

/-- The bincode payload of an unverified account. Modelled from the spec:
the serialized fields, which never include the email hash (the payload
never stores its own partition key) nor a version marker. -/
structure UnverifiedPayload where
  email : String
  ext : VerifyCx
deriving DecidableEq, Repr

/-- `<Unverified as dmds::Data>::encode`: bincode-serializes the inner
unverified account (structurally: all fields except the email hash). -/
def Unverified.encode (u : InnerUnverified) : UnverifiedPayload :=
  { email := u.email, ext := u.ext }

/-- `<Unverified as dmds::Data>::decode`: dispatches on the externally
supplied schema version. Version 1 deserializes the payload and then
injects the email hash from the dimension key `dims[0]` (the `unsafe
initialize_email_hash` call); any other version hits `unreachable!`. -/
def Unverified.decode (version : Nat) (dims : List Nat) (p : UnverifiedPayload) :
    DecodeResult InnerUnverified :=
  if version = 1 then
    .ok { email_hash := dims.headD 0, email := p.email, ext := p.ext }
  else
    .fatal

/-- `<Unverified as dmds::Data>::dim`: dimension 0 is the email hash. -/
def Unverified.dim (u : InnerUnverified) : Nat := u.email_hash

/-- Looking up the slot just written always succeeds. -/
theorem Ext.get_insert_same (ext : Ext) (v : VerifyVariant) (cx : VerifyCx) :
    (ext.insert v cx).get v = some cx := by
  cases v <;> rfl

/-- Looking up the slot just removed always fails. -/
theorem Ext.get_remove_same (ext : Ext) (v : VerifyVariant) :
    (ext.remove v).get v = none := by
  cases v <;> rfl

end Sms4

/-- Claim C1: `contains(a, b)` is true exactly for the eight explicitly
declared pairs of the table and false for every other pair; in particular
`contains(Post, GetPubPost) = true`, `contains(GetPubPost, Post) = false`,
and `contains(p, p) = false` for every `p`. The function decides membership
in the explicit table only, so nothing beyond the listed pairs (transitive
closure included) is granted by the function. -/
theorem C1_contains_exact_table :
    (∀ a b : Sms4.Permission,
      Sms4.Permission.contains a b = true ↔ (a, b) ∈ Sms4.specContainsPairs) ∧
    Sms4.Permission.contains .Post .GetPubPost = true ∧
    Sms4.Permission.contains .GetPubPost .Post = false ∧
    (∀ p : Sms4.Permission, Sms4.Permission.contains p p = false) := by
  refine ⟨?_, by decide, by decide, ?_⟩
  · intro a b
    cases a <;> cases b <;> decide
  · intro p
    cases p <;> decide

/-- Claim C8: `default_set()` grants exactly the five atoms Post, GetPubPost,
ViewSimpleAccount, UploadResource and GetPubNotifications, and no others. -/
theorem C8_default_set_exact :
    ∀ p : Sms4.Permission,
      p ∈ Sms4.Permission.default_set ↔
        (p = .Post ∨ p = .GetPubPost ∨ p = .ViewSimpleAccount ∨
         p = .UploadResource ∨ p = .GetPubNotifications) := by
  intro p
  cases p <;> decide

/-- Claim C2: when a session exists for the variant and its stored captcha
equals the candidate, `do_verify` succeeds and removes the session, so any
immediately subsequent `do_verify` for the same variant — with any captcha,
the same one included — returns `VerifySessionNotFound` (one-time use). -/
theorem C2_validate_one_time_use :
    ∀ (ext : Sms4.Ext) (variant : Sms4.VerifyVariant) (cx : Sms4.VerifyCx)
      (c : Sms4.Captcha),
      ext.get variant = some cx → cx.captcha = c →
      Sms4.Account.do_verify variant c ext = (.ok (), ext.remove variant) ∧
      ∀ c' : Sms4.Captcha,
        (Sms4.Account.do_verify variant c' (ext.remove variant)).1 =
          .error (.VerifySessionNotFound variant) := by
  intro ext variant cx c hget hcap
  refine ⟨?_, ?_⟩
  · simp [Sms4.Account.do_verify, hget, hcap]
  · intro c'
    simp [Sms4.Account.do_verify, Sms4.Ext.get_remove_same]

/-- Witness for C2, at a concrete state holding captcha 42 for the
reset-password variant. -/
theorem C2_validate_one_time_use_witness :
    Sms4.Account.do_verify .ResetPassword 42 ⟨some ⟨42, 0, 0⟩, none⟩ =
      (.ok (), Sms4.Ext.remove ⟨some ⟨42, 0, 0⟩, none⟩ .ResetPassword) ∧
    (Sms4.Account.do_verify .ResetPassword 42
        (Sms4.Ext.remove ⟨some ⟨42, 0, 0⟩, none⟩ .ResetPassword)).1 =
      .error (.VerifySessionNotFound .ResetPassword) :=
  ⟨(C2_validate_one_time_use ⟨some ⟨42, 0, 0⟩, none⟩ .ResetPassword
      ⟨42, 0, 0⟩ 42 rfl rfl).1,
   (C2_validate_one_time_use ⟨some ⟨42, 0, 0⟩, none⟩ .ResetPassword
      ⟨42, 0, 0⟩ 42 rfl rfl).2 42⟩

/-- Claim C3: with an existing session for the variant, `req_verify` within
the 10-minute cooldown (elapsed time no more than `cooldown`) returns
`Throttled` and leaves the state — the original captcha included —
unchanged; after the cooldown has elapsed it succeeds, regenerates the
captcha and refreshes the last-request timestamp. -/
theorem C3_request_cooldown :
    ∀ (ext : Sms4.Ext) (variant : Sms4.VerifyVariant) (cx : Sms4.VerifyCx)
      (now fresh : Nat) (sendResult : Except Sms4.Error Unit),
      ext.get variant = some cx →
      (now - cx.last_request_at ≤ Sms4.cooldown →
        Sms4.Account.req_verify variant now fresh sendResult ext =
          (.err .Throttled, ext)) ∧
      (Sms4.cooldown < now - cx.last_request_at →
        Sms4.Account.req_verify variant now fresh (.ok ()) ext =
          (.ok, ext.insert variant
            { cx with captcha := fresh, last_request_at := now })) := by
  intro ext variant cx now fresh sendResult hget
  refine ⟨fun h => ?_, fun h => ?_⟩
  · simp [Sms4.Account.req_verify, hget, Sms4.VerifyCx.update, h]
  · simp [Sms4.Account.req_verify, hget, Sms4.VerifyCx.update, Nat.not_le.mpr h,
      Sms4.Account.send_step, Sms4.Ext.get_insert_same]

/-- Witness for C3, at a concrete session last requested at time 0:
re-requesting at time 100 is throttled; at time 601 it succeeds with the
fresh captcha 9 and refreshed timestamp. -/
theorem C3_request_cooldown_witness :
    Sms4.Account.req_verify .ResetPassword 100 9 (.ok ()) ⟨some ⟨7, 0, 0⟩, none⟩ =
      (.err .Throttled, ⟨some ⟨7, 0, 0⟩, none⟩) ∧
    Sms4.Account.req_verify .ResetPassword 601 9 (.ok ()) ⟨some ⟨7, 0, 0⟩, none⟩ =
      (.ok, Sms4.Ext.insert ⟨some ⟨7, 0, 0⟩, none⟩ .ResetPassword ⟨9, 0, 601⟩) :=
  ⟨(C3_request_cooldown ⟨some ⟨7, 0, 0⟩, none⟩ .ResetPassword ⟨7, 0, 0⟩
      100 9 (.ok ()) rfl).1 (by decide),
   (C3_request_cooldown ⟨some ⟨7, 0, 0⟩, none⟩ .ResetPassword ⟨7, 0, 0⟩
      601 9 (.ok ()) rfl).2 (by decide)⟩

/-- Claim C4: `do_verify` with a session present but a mismatching captcha
returns `CaptchaIncorrect` and leaves the extension state unchanged, so the
session is still present and the correct captcha still succeeds afterwards;
with no session for the variant it returns `VerifySessionNotFound`, likewise
leaving the state unchanged. -/
theorem C4_validate_failure_preserves_state :
    ∀ (ext : Sms4.Ext) (variant : Sms4.VerifyVariant) (c : Sms4.Captcha),
      (∀ cx : Sms4.VerifyCx, ext.get variant = some cx → cx.captcha ≠ c →
        Sms4.Account.do_verify variant c ext = (.error .CaptchaIncorrect, ext) ∧
        Sms4.Account.do_verify variant cx.captcha ext =
          (.ok (), ext.remove variant)) ∧
      (ext.get variant = none →
        Sms4.Account.do_verify variant c ext =
          (.error (.VerifySessionNotFound variant), ext)) := by
  intro ext variant c
  refine ⟨fun cx hget hne => ⟨?_, ?_⟩, fun hget => ?_⟩
  · simp [Sms4.Account.do_verify, hget, hne]
  · simp [Sms4.Account.do_verify, hget]
  · simp [Sms4.Account.do_verify, hget]

/-- Witness for C4, at a concrete state holding captcha 42: candidate 5 is
rejected with the state intact, 42 still succeeds, and the empty state
reports a missing session. -/
theorem C4_validate_failure_preserves_state_witness :
    Sms4.Account.do_verify .ResetPassword 5 ⟨some ⟨42, 0, 0⟩, none⟩ =
      (.error .CaptchaIncorrect, ⟨some ⟨42, 0, 0⟩, none⟩) ∧
    Sms4.Account.do_verify .ResetPassword 42 ⟨some ⟨42, 0, 0⟩, none⟩ =
      (.ok (), Sms4.Ext.remove ⟨some ⟨42, 0, 0⟩, none⟩ .ResetPassword) ∧
    Sms4.Account.do_verify .ResetPassword 5 ⟨none, none⟩ =
      (.error (.VerifySessionNotFound .ResetPassword), ⟨none, none⟩) :=
  ⟨((C4_validate_failure_preserves_state ⟨some ⟨42, 0, 0⟩, none⟩ .ResetPassword 5).1
      ⟨42, 0, 0⟩ rfl (by decide)).1,
   ((C4_validate_failure_preserves_state ⟨some ⟨42, 0, 0⟩, none⟩ .ResetPassword 5).1
      ⟨42, 0, 0⟩ rfl (by decide)).2,
   (C4_validate_failure_preserves_state ⟨none, none⟩ .ResetPassword 5).2 rfl⟩

/-- Claim C5: for every entity and every one-element dimension key array,
decoding version 1 of the encoding reproduces the entity in all fields
except the partition/identity field (account id, or email hash), which is
taken from `dims[0]` rather than from the payload. -/
theorem C5_codec_round_trip :
    ∀ (a : Sms4.InnerAccount) (u : Sms4.InnerUnverified) (d : Nat),
      Sms4.Account.decode 1 [d] (Sms4.Account.encode a) =
        .ok { a with id := d } ∧
      Sms4.Unverified.decode 1 [d] (Sms4.Unverified.encode u) =
        .ok { u with email_hash := d } := by
  intro a u d
  exact ⟨rfl, rfl⟩

/-- Claim C6: in `req_verify` the session is created or refreshed before
the email send is attempted, so when the cooldown check passes and the
transport then fails, the transport error is returned unmodified while the
freshly written session remains in the extension state. -/
theorem C6_session_written_before_send :
    ∀ (ext : Sms4.Ext) (variant : Sms4.VerifyVariant) (now fresh : Nat)
      (e : Sms4.Error),
      (ext.get variant = none →
        Sms4.Account.req_verify variant now fresh (.error e) ext =
          (.err e, ext.insert variant (Sms4.VerifyCx.new now fresh))) ∧
      (∀ cx : Sms4.VerifyCx, ext.get variant = some cx →
        Sms4.cooldown < now - cx.last_request_at →
        Sms4.Account.req_verify variant now fresh (.error e) ext =
          (.err e, ext.insert variant
            { cx with captcha := fresh, last_request_at := now })) := by
  intro ext variant now fresh e
  refine ⟨fun hget => ?_, fun cx hget h => ?_⟩
  · simp [Sms4.Account.req_verify, hget, Sms4.Account.send_step,
      Sms4.Ext.get_insert_same]
  · simp [Sms4.Account.req_verify, hget, Sms4.VerifyCx.update, Nat.not_le.mpr h,
      Sms4.Account.send_step, Sms4.Ext.get_insert_same]

/-- Witness for C6: on the empty state and on a stale session, a transport
failure (code 3) is returned verbatim and the fresh session is stored. -/
theorem C6_session_written_before_send_witness :
    Sms4.Account.req_verify .ResetPassword 601 9 (.error (.TransportError 3))
        ⟨none, none⟩ =
      (.err (.TransportError 3),
        Sms4.Ext.insert ⟨none, none⟩ .ResetPassword (Sms4.VerifyCx.new 601 9)) ∧
    Sms4.Account.req_verify .ResetPassword 601 9 (.error (.TransportError 3))
        ⟨some ⟨7, 0, 0⟩, none⟩ =
      (.err (.TransportError 3),
        Sms4.Ext.insert ⟨some ⟨7, 0, 0⟩, none⟩ .ResetPassword ⟨9, 0, 601⟩) :=
  ⟨(C6_session_written_before_send ⟨none, none⟩ .ResetPassword 601 9
      (.TransportError 3)).1 rfl,
   (C6_session_written_before_send ⟨some ⟨7, 0, 0⟩, none⟩ .ResetPassword 601 9
      (.TransportError 3)).2 ⟨7, 0, 0⟩ rfl (by decide)⟩

/-- Claim C7: decode is defined only for schema version 1 — any other
version takes the fatal `unreachable!` branch, for both entities and every
dimension array and payload, and under version 1 the fatal branch is never
taken. -/
theorem C7_decode_version_dispatch :
    ∀ (version : Nat) (dims : List Nat) (p : Sms4.AccountPayload)
      (q : Sms4.UnverifiedPayload),
      (version ≠ 1 →
        Sms4.Account.decode version dims p = .fatal ∧
        Sms4.Unverified.decode version dims q = .fatal) ∧
      Sms4.Account.decode 1 dims p ≠ .fatal ∧
      Sms4.Unverified.decode 1 dims q ≠ .fatal := by
  intro version dims p q
  refine ⟨fun h => ⟨?_, ?_⟩, ?_, ?_⟩ <;>
    simp_all [Sms4.Account.decode, Sms4.Unverified.decode]

/-- Witness for C7: version 2 is fatal for both entities at a concrete
payload; version 1 is not. -/
theorem C7_decode_version_dispatch_witness :
    Sms4.Account.decode 2 [0] ⟨"a", [], ⟨none, none⟩⟩ = .fatal ∧
    Sms4.Unverified.decode 2 [0] ⟨"a", ⟨0, 0, 0⟩⟩ = .fatal ∧
    Sms4.Account.decode 1 [0] ⟨"a", [], ⟨none, none⟩⟩ ≠ .fatal :=
  ⟨((C7_decode_version_dispatch 2 [0] ⟨"a", [], ⟨none, none⟩⟩
      ⟨"a", ⟨0, 0, 0⟩⟩).1 (by decide)).1,
   ((C7_decode_version_dispatch 2 [0] ⟨"a", [], ⟨none, none⟩⟩
      ⟨"a", ⟨0, 0, 0⟩⟩).1 (by decide)).2,
   (C7_decode_version_dispatch 1 [0] ⟨"a", [], ⟨none, none⟩⟩
      ⟨"a", ⟨0, 0, 0⟩⟩).2.1⟩

/-- Claim C10: in `req_verify`, after the insert-or-update step the map
always contains a session for the variant, so the lookup-and-unwrap before
sending the email never panics — for every state, variant, time, fresh
captcha and transport outcome, the outcome is never the panic marker. -/
theorem C10_unwrap_never_panics :
    ∀ (ext : Sms4.Ext) (variant : Sms4.VerifyVariant) (now fresh : Nat)
      (sendResult : Except Sms4.Error Unit),
      (Sms4.Account.req_verify variant now fresh sendResult ext).1 ≠
        .panicked := by
  intro ext variant now fresh sendResult
  unfold Sms4.Account.req_verify
  cases hget : ext.get variant with
  | none =>
    simp [Sms4.Account.send_step, Sms4.Ext.get_insert_same]
    cases sendResult <;> simp
  | some cx =>
    cases hupd : cx.update now fresh with
    | error e => simp [hupd]
    | ok cx' =>
      simp [hupd, Sms4.Account.send_step, Sms4.Ext.get_insert_same]
      cases sendResult <;> simp

/-- Claim C9: `is_user_defineable(e)` is false exactly when `e` is the
Permission entry, and true for Department, House and Academy. -/
theorem C9_user_defineable_exact :
    ∀ e : Sms4.TagEntry,
      (Sms4.TagEntry.is_user_defineable e = false ↔ e = .Permission) ∧
      Sms4.TagEntry.is_user_defineable .Department = true ∧
      Sms4.TagEntry.is_user_defineable .House = true ∧
      Sms4.TagEntry.is_user_defineable .Academy = true := by
  intro e
  cases e <;> decide
